import Mathlib

/-!
Verification of the HealthTrackIoT threshold-alerting subsystem.

This file gives a shallow embedding of the alert evaluator
(`checkForAlerts` in `server/thingspeak.ts`), its threshold-resolution
step (lines 54-70 of that file), the default ranges `VITAL_RANGES` from
`shared/schema.ts`, and the in-memory alert store operation
`markAlertAsRead` from `server/storage.ts` (class `MemStorage`).

JavaScript numbers are modelled by the type `JsNum`: a rational together
with the special values `NaN`, `Infinity` and `-Infinity` (floating-point
rounding is abstracted away; every comparison and offset in the source
has integer or one-decimal slack).  The special values matter because the
threshold-resolution code feeds arbitrary stored strings through the
JavaScript builtin `parseFloat`, which is modelled here including its
longest-numeric-prefix behaviour, `NaN` on unparseable input, and the
literal `Infinity` form.

The evaluator's interaction with the storage collaborator is modelled as
a trace of `StoreOp` values: the code first calls
`storage.getUserThreshold(userId)` and then performs one
`storage.createAlert` per out-of-range vital, in source order.  The
threshold record the store would answer with is passed in explicitly.
-/

namespace HealthTrack

/-- A JavaScript number: a rational, or one of the special values
`NaN`, `Infinity`, `-Infinity`. -/
inductive JsNum where
  | nan : JsNum
  | inf : JsNum
  | negInf : JsNum
  | num : ℚ → JsNum
deriving DecidableEq, Repr

/-- JavaScript `<` on numbers: any comparison with `NaN` is false. -/
def JsNum.lt : JsNum → JsNum → Bool
  | JsNum.num a, JsNum.num b => decide (a < b)
  | JsNum.num _, JsNum.inf => true
  | JsNum.negInf, JsNum.num _ => true
  | JsNum.negInf, JsNum.inf => true
  | _, _ => false

/-- JavaScript `>` on numbers. -/
def JsNum.gt (a b : JsNum) : Bool := JsNum.lt b a

/-- JavaScript `+` on numbers. -/
def JsNum.add : JsNum → JsNum → JsNum
  | JsNum.num a, JsNum.num b => JsNum.num (a + b)
  | JsNum.num _, JsNum.inf => JsNum.inf
  | JsNum.inf, JsNum.num _ => JsNum.inf
  | JsNum.inf, JsNum.inf => JsNum.inf
  | JsNum.num _, JsNum.negInf => JsNum.negInf
  | JsNum.negInf, JsNum.num _ => JsNum.negInf
  | JsNum.negInf, JsNum.negInf => JsNum.negInf
  | _, _ => JsNum.nan

/-- JavaScript binary `-` on numbers. -/
def JsNum.sub : JsNum → JsNum → JsNum
  | JsNum.num a, JsNum.num b => JsNum.num (a - b)
  | JsNum.num _, JsNum.inf => JsNum.negInf
  | JsNum.num _, JsNum.negInf => JsNum.inf
  | JsNum.inf, JsNum.num _ => JsNum.inf
  | JsNum.inf, JsNum.negInf => JsNum.inf
  | JsNum.negInf, JsNum.num _ => JsNum.negInf
  | JsNum.negInf, JsNum.inf => JsNum.negInf
  | _, _ => JsNum.nan

/-- JavaScript unary `-` on numbers. -/
def JsNum.neg : JsNum → JsNum
  | JsNum.nan => JsNum.nan
  | JsNum.inf => JsNum.negInf
  | JsNum.negInf => JsNum.inf
  | JsNum.num q => JsNum.num (-q)

/-- Value of a list of decimal digit characters. -/
def digitsVal (cs : List Char) : ℕ :=
  cs.foldl (fun acc c => 10 * acc + (c.toNat - 48)) 0

/-- Exponent part of a JavaScript float literal (after the `e`/`E`):
optional sign then digits; an exponent with no digits contributes 0,
matching `parseFloat` which then simply stops before the `e`. -/
def parseExponent (cs : List Char) : ℤ :=
  match cs with
  | '+' :: t =>
      if (t.takeWhile Char.isDigit).isEmpty then 0
      else (digitsVal (t.takeWhile Char.isDigit) : ℤ)
  | '-' :: t =>
      if (t.takeWhile Char.isDigit).isEmpty then 0
      else -(digitsVal (t.takeWhile Char.isDigit) : ℤ)
  | t =>
      if (t.takeWhile Char.isDigit).isEmpty then 0
      else (digitsVal (t.takeWhile Char.isDigit) : ℤ)

/-- Unsigned part of the JavaScript builtin `parseFloat`: longest
numeric prefix (digits, optional fraction, optional exponent), the
literal `Infinity`, or `NaN` when no digits are found. -/
def parseFloatCore (cs : List Char) : JsNum :=
  if "Infinity".toList.isPrefixOf cs then JsNum.inf
  else
    let intDigits := cs.takeWhile Char.isDigit
    let rest1 := cs.dropWhile Char.isDigit
    let fracDigits :=
      match rest1 with
      | '.' :: t => t.takeWhile Char.isDigit
      | _ => []
    let rest2 :=
      match rest1 with
      | '.' :: t => t.dropWhile Char.isDigit
      | _ => rest1
    if intDigits.isEmpty && fracDigits.isEmpty then JsNum.nan
    else
      let mant : ℚ :=
        (digitsVal intDigits : ℚ) + (digitsVal fracDigits : ℚ) / (10 : ℚ) ^ fracDigits.length
      let e : ℤ :=
        match rest2 with
        | 'e' :: t => parseExponent t
        | 'E' :: t => parseExponent t
        | _ => 0
      JsNum.num (mant * (10 : ℚ) ^ e)

/-- The JavaScript builtin `parseFloat`: trim leading whitespace, parse
an optional sign and then the longest numeric prefix; `NaN` if none. -/
def parseFloat (s : String) : JsNum :=
  match s.toList.dropWhile (fun c => c == ' ' || c == '\t' || c == '\n' || c == '\r') with
  | '-' :: t => (parseFloatCore t).neg
  | '+' :: t => parseFloatCore t
  | cs => parseFloatCore cs

/-- Pad the decimal representation of `n` with leading zeros to `k` digits. -/
def natPad (k : ℕ) (n : ℕ) : String :=
  String.mk (List.replicate (k - (toString n).length) '0') ++ toString n

/-- Decimal representation of a nonnegative rational with a finite
decimal expansion (the only case JavaScript template literals exercise
in this program): the minimal number of fractional digits, so no
trailing zeros, matching `Number.prototype.toString`.  Rationals with no
finite expansion of at most 30 digits fall back to a fraction form;
that case is outside the range produced by the program's data. -/
def decimalOfNonneg (q : ℚ) : String :=
  match (List.range 31).find? (fun k => (q * (10 : ℚ) ^ k).den == 1) with
  | some k =>
      let N : ℕ := (q * (10 : ℚ) ^ k).num.toNat
      if k = 0 then toString N
      else toString (N / 10 ^ k) ++ "." ++ natPad k (N % 10 ^ k)
  | none => toString q.num ++ "/" ++ toString q.den

/-- JavaScript number-to-string conversion as used by template literals. -/
def jsToStr : JsNum → String
  | JsNum.nan => "NaN"
  | JsNum.inf => "Infinity"
  | JsNum.negInf => "-Infinity"
  | JsNum.num q => if q < 0 then "-" ++ decimalOfNonneg (-q) else decimalOfNonneg q

/-- One vital's range, `shared/schema.ts` interface `VitalRanges` entries:
`{ min: number; max: number; unit: string }`. -/
structure VitalRange where
  min : JsNum
  max : JsNum
  unit : String
deriving DecidableEq, Repr

/-- `shared/schema.ts` interface `VitalRanges`. -/
structure VitalRanges where
  heartRate : VitalRange
  oxygen : VitalRange
  temperature : VitalRange
deriving DecidableEq, Repr

/-- `shared/schema.ts` constant `VITAL_RANGES` (lines 168-172). -/
def VITAL_RANGES : VitalRanges :=
  { heartRate := { min := JsNum.num 60, max := JsNum.num 100, unit := "BPM" },
    oxygen := { min := JsNum.num 95, max := JsNum.num 100, unit := "%" },
    temperature := { min := JsNum.num 36.5, max := JsNum.num 37.5, unit := "°C" } }

/-- A row of the `thresholds` table (`shared/schema.ts` lines 44-61).
The numeric columns are delivered to JavaScript as strings; they are
non-null with database defaults.  `updatedAt` is irrelevant to the
evaluator and omitted. -/
structure Threshold where
  id : ℤ
  userId : ℤ
  heartRateMin : String
  heartRateMax : String
  oxygenMin : String
  temperatureMin : String
  temperatureMax : String
deriving DecidableEq, Repr

/-- `shared/schema.ts` interface `ThingSpeakField`: three optional
numeric fields plus a timestamp string. -/
structure ThingSpeakField where
  field1 : Option JsNum
  field2 : Option JsNum
  field3 : Option JsNum
  created_at : String
deriving DecidableEq, Repr

/-- `shared/schema.ts` interface `ThingSpeakResponse`.  The `channel`
metadata object is never read by the evaluator and is omitted; `feeds`
is `Option`al to model the code's `!data.feeds` guard against a missing
array. -/
structure ThingSpeakResponse where
  feeds : Option (List ThingSpeakField)
deriving DecidableEq, Repr

/-- One threshold bound as resolved by `checkForAlerts`
(`server/thingspeak.ts` lines 54-70): JavaScript truthiness on the
stored string (`undefined` or `""` is falsy and falls back to the
default), otherwise `parseFloat` of the stored string. -/
def strOrDefault (v : Option String) (dflt : JsNum) : JsNum :=
  match v with
  | some s => if s = "" then dflt else parseFloat s
  | none => dflt

/-- The `ranges` object built by `checkForAlerts`
(`server/thingspeak.ts` lines 54-70) from the user's threshold record
and the default ranges.  Oxygen's `max` is always taken from the
defaults; all units come from the defaults. -/
def resolveRanges (userThreshold : Option Threshold) (defaultRanges : VitalRanges) : VitalRanges :=
  { heartRate :=
      { min := strOrDefault (userThreshold.map Threshold.heartRateMin) defaultRanges.heartRate.min,
        max := strOrDefault (userThreshold.map Threshold.heartRateMax) defaultRanges.heartRate.max,
        unit := defaultRanges.heartRate.unit },
    oxygen :=
      { min := strOrDefault (userThreshold.map Threshold.oxygenMin) defaultRanges.oxygen.min,
        max := defaultRanges.oxygen.max,
        unit := defaultRanges.oxygen.unit },
    temperature :=
      { min := strOrDefault (userThreshold.map Threshold.temperatureMin) defaultRanges.temperature.min,
        max := strOrDefault (userThreshold.map Threshold.temperatureMax) defaultRanges.temperature.max,
        unit := defaultRanges.temperature.unit } }

/-- `shared/schema.ts` type `InsertAlert` (alert row without id and
timestamp, which the store fills in). -/
structure InsertAlert where
  userId : ℤ
  type : String
  message : String
  severity : String
  isRead : Bool
deriving DecidableEq, Repr

/-- The heart-rate check of `checkForAlerts` (`server/thingspeak.ts`
lines 75-91): alert when `field1` is present and below min or above
max; critical when more than 10 BPM outside. -/
def checkHeartRate (userId : ℤ) (ranges : VitalRanges) (latestReading : ThingSpeakField) :
    List InsertAlert :=
  match latestReading.field1 with
  | none => []
  | some heartRate =>
      if heartRate.lt ranges.heartRate.min || heartRate.gt ranges.heartRate.max then
        [{ userId := userId,
           type := "heart-rate",
           message := "Heart rate is " ++ jsToStr heartRate ++ " BPM, outside normal range ("
             ++ jsToStr ranges.heartRate.min ++ "-" ++ jsToStr ranges.heartRate.max ++ " BPM)",
           severity :=
             if heartRate.lt (ranges.heartRate.min.sub (JsNum.num 10))
                 || heartRate.gt (ranges.heartRate.max.add (JsNum.num 10)) then "critical"
             else "warning",
           isRead := false }]
      else []

/-- The oxygen check of `checkForAlerts` (`server/thingspeak.ts` lines
94-109): alert when `field2` is present and below min (no upper check);
critical when more than 3 points below. -/
def checkOxygen (userId : ℤ) (ranges : VitalRanges) (latestReading : ThingSpeakField) :
    List InsertAlert :=
  match latestReading.field2 with
  | none => []
  | some oxygen =>
      if oxygen.lt ranges.oxygen.min then
        [{ userId := userId,
           type := "oxygen",
           message := "Oxygen saturation is " ++ jsToStr oxygen ++ "%, below normal range (≥"
             ++ jsToStr ranges.oxygen.min ++ "%)",
           severity :=
             if oxygen.lt (ranges.oxygen.min.sub (JsNum.num 3)) then "critical" else "warning",
           isRead := false }]
      else []

/-- The temperature check of `checkForAlerts` (`server/thingspeak.ts`
lines 112-128): alert when `field3` is present and below min or above
max; critical when more than 1 degree outside. -/
def checkTemperature (userId : ℤ) (ranges : VitalRanges) (latestReading : ThingSpeakField) :
    List InsertAlert :=
  match latestReading.field3 with
  | none => []
  | some temperature =>
      if temperature.lt ranges.temperature.min || temperature.gt ranges.temperature.max then
        [{ userId := userId,
           type := "temperature",
           message := "Temperature is " ++ jsToStr temperature ++ "°C, outside normal range ("
             ++ jsToStr ranges.temperature.min ++ "-" ++ jsToStr ranges.temperature.max ++ "°C)",
           severity :=
             if temperature.gt (ranges.temperature.max.add (JsNum.num 1))
                 || temperature.lt (ranges.temperature.min.sub (JsNum.num 1)) then "critical"
             else "warning",
           isRead := false }]
      else []

/-- The three per-vital checks of `checkForAlerts` on the latest
reading, in source order (heart rate, oxygen, temperature), collecting
the alerts passed to `storage.createAlert`. -/
def evaluateReading (userId : ℤ) (ranges : VitalRanges) (latestReading : ThingSpeakField) :
    List InsertAlert :=
  checkHeartRate userId ranges latestReading ++ checkOxygen userId ranges latestReading
    ++ checkTemperature userId ranges latestReading

/-- One interaction of `checkForAlerts` with the storage collaborator. -/
inductive StoreOp where
  | getThreshold : ℤ → StoreOp
  | create : InsertAlert → StoreOp
deriving DecidableEq, Repr

/-- `server/thingspeak.ts` `checkForAlerts` (lines 43-129) as a trace of
store operations.  `userThreshold` is the record the store's
`getUserThreshold(userId)` call answers with.  On a missing or empty
`feeds` array the function returns before any store interaction;
otherwise it reads the user's threshold, resolves the effective ranges,
and creates one alert per out-of-range vital of the latest reading. -/
def checkForAlerts (userId : ℤ) (userThreshold : Option Threshold)
    (data : ThingSpeakResponse) (defaultRanges : VitalRanges) : List StoreOp :=
  match data.feeds with
  | none => []
  | some [] => []
  | some (latestReading :: _) =>
      StoreOp.getThreshold userId ::
        (evaluateReading userId (resolveRanges userThreshold defaultRanges) latestReading).map
          StoreOp.create

/-- The alerts a trace of store operations writes, in order. -/
def createdAlerts : List StoreOp → List InsertAlert
  | [] => []
  | StoreOp.getThreshold _ :: rest => createdAlerts rest
  | StoreOp.create a :: rest => a :: createdAlerts rest

/-- The alerts of one vital type among a list of alerts. -/
def alertsOfType (t : String) (l : List InsertAlert) : List InsertAlert :=
  l.filter (fun a => a.type == t)

/-- Effect of one store operation on the alert store's contents
(`createAlert` appends; `getUserThreshold` is a pure read). -/
def applyOp (st : List InsertAlert) : StoreOp → List InsertAlert
  | StoreOp.getThreshold _ => st
  | StoreOp.create a => st ++ [a]

/-- Effect of a trace of store operations on the alert store. -/
def applyOps (st : List InsertAlert) (ops : List StoreOp) : List InsertAlert :=
  ops.foldl applyOp st

/-- A stored alert row (`shared/schema.ts` table `alerts`); the `Date`
timestamp is abstracted to an integer. -/
structure Alert where
  id : ℤ
  userId : ℤ
  type : String
  message : String
  timestamp : ℤ
  isRead : Bool
  severity : String
deriving DecidableEq, Repr

/-- The `MemStorage` alerts map, `Map<number, Alert>` keyed by alert id. -/
abbrev AlertMap := ℤ → Option Alert

/-- `Map.get` on the alerts map. -/
def AlertMap.get (m : AlertMap) (id : ℤ) : Option Alert := m id

/-- `Map.set` on the alerts map. -/
def AlertMap.set (m : AlertMap) (id : ℤ) (a : Alert) : AlertMap :=
  fun j => if j = id then some a else m j

/-- `server/storage.ts` `MemStorage.markAlertAsRead` (lines 157-170):
look the alert up; if absent raise `"Alert not found"` (leaving the map
untouched); otherwise store a copy with `isRead` set to `true` and
return it.  The map is threaded explicitly. -/
def markAlertAsRead (m : AlertMap) (id : ℤ) : AlertMap × Except String Alert :=
  match AlertMap.get m id with
  | none => (m, Except.error "Alert not found")
  | some alert =>
      let updatedAlert : Alert := { alert with isRead := true }
      (AlertMap.set m id updatedAlert, Except.ok updatedAlert)

/-- Substring containment on strings (JavaScript `String.includes`). -/
def containsStr (s pat : String) : Prop := pat.toList <:+: s.toList

instance (s pat : String) : Decidable (containsStr s pat) :=
  inferInstanceAs (Decidable (pat.toList <:+: s.toList))

/-! ### Sample data used by concrete scenarios -/

/-- The spec's section-8 scenario reading. -/
def sampleReading : ThingSpeakField :=
  { field1 := some (JsNum.num 120), field2 := some (JsNum.num 90),
    field3 := some (JsNum.num 38.2), created_at := "2024-01-01T00:00:00Z" }

/-- Response wrapping the scenario reading. -/
def sampleData : ThingSpeakResponse := { feeds := some [sampleReading] }

/-- Projection used to state which alerts a run produced. -/
def typeSeverity (a : InsertAlert) : String × String := (a.type, a.severity)

/-- A reading with oxygen exactly three points under the default minimum. -/
def oxygenBoundaryReading : ThingSpeakField :=
  { field1 := none, field2 := some (JsNum.num 92), field3 := none, created_at := "" }

/-- Response wrapping the oxygen boundary reading. -/
def oxygenBoundaryData : ThingSpeakResponse := { feeds := some [oxygenBoundaryReading] }

/-- A threshold record whose stored heart-rate minimum is not a number. -/
def unparseableThreshold : Threshold :=
  { id := 1, userId := 1, heartRateMin := "abc", heartRateMax := "100",
    oxygenMin := "95", temperatureMin := "36.5", temperatureMax := "37.5" }

/-- A reading whose heart rate (50) is below the default minimum (60). -/
def lowHeartRateData : ThingSpeakResponse :=
  { feeds := some [{ field1 := some (JsNum.num 50), field2 := none, field3 := none,
                     created_at := "" }] }

/-- A response with an empty feed list. -/
def emptyFeedsData : ThingSpeakResponse := { feeds := some [] }

/-- A response with the feeds array missing. -/
def missingFeedsData : ThingSpeakResponse := { feeds := none }

/-- A stored alert used to exercise the store operations. -/
def sampleAlert : Alert :=
  { id := 1, userId := 7, type := "oxygen",
    message := "Oxygen saturation is 90%, below normal range (≥95%)",
    timestamp := 0, isRead := false, severity := "warning" }

/-- A store holding exactly `sampleAlert` under id 1. -/
def sampleStore : AlertMap := AlertMap.set (fun _ => none) 1 sampleAlert

/-! ### Helper lemmas -/

@[simp] theorem JsNum.lt_num (a b : ℚ) :
    JsNum.lt (JsNum.num a) (JsNum.num b) = decide (a < b) := rfl

@[simp] theorem JsNum.gt_num (a b : ℚ) :
    JsNum.gt (JsNum.num a) (JsNum.num b) = decide (b < a) := rfl

@[simp] theorem JsNum.sub_num (a b : ℚ) :
    JsNum.sub (JsNum.num a) (JsNum.num b) = JsNum.num (a - b) := rfl

@[simp] theorem JsNum.add_num (a b : ℚ) :
    JsNum.add (JsNum.num a) (JsNum.num b) = JsNum.num (a + b) := rfl

@[simp] theorem JsNum.lt_nan_right (a : JsNum) : JsNum.lt a JsNum.nan = false := by
  cases a <;> rfl

@[simp] theorem JsNum.lt_nan_left (b : JsNum) : JsNum.lt JsNum.nan b = false := rfl

theorem createdAlerts_map_create (l : List InsertAlert) :
    createdAlerts (l.map StoreOp.create) = l := by
  induction l with
  | nil => rfl
  | cons a t ih => simp [createdAlerts, ih]

theorem createdAlerts_checkForAlerts (uid : ℤ) (thr : Option Threshold) (dflt : VitalRanges)
    (data : ThingSpeakResponse) (r : ThingSpeakField) (rest : List ThingSpeakField)
    (hfeeds : data.feeds = some (r :: rest)) :
    createdAlerts (checkForAlerts uid thr data dflt)
      = evaluateReading uid (resolveRanges thr dflt) r := by
  simp [checkForAlerts, hfeeds, createdAlerts, createdAlerts_map_create]

theorem alertsOfType_append (t : String) (l1 l2 : List InsertAlert) :
    alertsOfType t (l1 ++ l2) = alertsOfType t l1 ++ alertsOfType t l2 := by
  simp [alertsOfType, List.filter_append]

theorem hrAlerts_checkHeartRate (u : ℤ) (g : VitalRanges) (r : ThingSpeakField) :
    alertsOfType "heart-rate" (checkHeartRate u g r) = checkHeartRate u g r := by
  unfold checkHeartRate
  cases h : r.field1
  · rfl
  · dsimp only
    split <;> rfl

theorem hrAlerts_checkOxygen (u : ℤ) (g : VitalRanges) (r : ThingSpeakField) :
    alertsOfType "heart-rate" (checkOxygen u g r) = [] := by
  unfold checkOxygen
  cases h : r.field2
  · rfl
  · dsimp only
    split <;> rfl

theorem hrAlerts_checkTemperature (u : ℤ) (g : VitalRanges) (r : ThingSpeakField) :
    alertsOfType "heart-rate" (checkTemperature u g r) = [] := by
  unfold checkTemperature
  cases h : r.field3
  · rfl
  · dsimp only
    split <;> rfl

theorem oxAlerts_checkHeartRate (u : ℤ) (g : VitalRanges) (r : ThingSpeakField) :
    alertsOfType "oxygen" (checkHeartRate u g r) = [] := by
  unfold checkHeartRate
  cases h : r.field1
  · rfl
  · dsimp only
    split <;> rfl

theorem oxAlerts_checkOxygen (u : ℤ) (g : VitalRanges) (r : ThingSpeakField) :
    alertsOfType "oxygen" (checkOxygen u g r) = checkOxygen u g r := by
  unfold checkOxygen
  cases h : r.field2
  · rfl
  · dsimp only
    split <;> rfl

theorem oxAlerts_checkTemperature (u : ℤ) (g : VitalRanges) (r : ThingSpeakField) :
    alertsOfType "oxygen" (checkTemperature u g r) = [] := by
  unfold checkTemperature
  cases h : r.field3
  · rfl
  · dsimp only
    split <;> rfl

theorem tempAlerts_checkHeartRate (u : ℤ) (g : VitalRanges) (r : ThingSpeakField) :
    alertsOfType "temperature" (checkHeartRate u g r) = [] := by
  unfold checkHeartRate
  cases h : r.field1
  · rfl
  · dsimp only
    split <;> rfl

theorem tempAlerts_checkOxygen (u : ℤ) (g : VitalRanges) (r : ThingSpeakField) :
    alertsOfType "temperature" (checkOxygen u g r) = [] := by
  unfold checkOxygen
  cases h : r.field2
  · rfl
  · dsimp only
    split <;> rfl

theorem tempAlerts_checkTemperature (u : ℤ) (g : VitalRanges) (r : ThingSpeakField) :
    alertsOfType "temperature" (checkTemperature u g r) = checkTemperature u g r := by
  unfold checkTemperature
  cases h : r.field3
  · rfl
  · dsimp only
    split <;> rfl

theorem hrAlerts_evaluateReading (u : ℤ) (g : VitalRanges) (r : ThingSpeakField) :
    alertsOfType "heart-rate" (evaluateReading u g r) = checkHeartRate u g r := by
  unfold evaluateReading
  rw [alertsOfType_append, alertsOfType_append, hrAlerts_checkHeartRate, hrAlerts_checkOxygen,
    hrAlerts_checkTemperature, List.append_nil, List.append_nil]

theorem oxAlerts_evaluateReading (u : ℤ) (g : VitalRanges) (r : ThingSpeakField) :
    alertsOfType "oxygen" (evaluateReading u g r) = checkOxygen u g r := by
  unfold evaluateReading
  rw [alertsOfType_append, alertsOfType_append, oxAlerts_checkHeartRate, oxAlerts_checkOxygen,
    oxAlerts_checkTemperature, List.append_nil, List.nil_append]

theorem tempAlerts_evaluateReading (u : ℤ) (g : VitalRanges) (r : ThingSpeakField) :
    alertsOfType "temperature" (evaluateReading u g r) = checkTemperature u g r := by
  unfold evaluateReading
  rw [alertsOfType_append, alertsOfType_append, tempAlerts_checkHeartRate,
    tempAlerts_checkOxygen, tempAlerts_checkTemperature, List.nil_append, List.nil_append]

theorem AlertMap.get_set (m : AlertMap) (id : ℤ) (a : Alert) (j : ℤ) :
    AlertMap.get (AlertMap.set m id a) j = if j = id then some a else AlertMap.get m j := rfl

/-! ### Claim theorems

Batteries marks the arithmetic on `Rat` irreducible; evaluation of the
evaluator on concrete readings needs it unfolded. -/

section

attribute [local semireducible] Rat.add Rat.sub Rat.mul Rat.inv Rat.ofScientific

/-- C1, counterexample: on the scenario reading `{field1: 120, field2: 90,
field3: 38.2}` with the default ranges, the run emits exactly a heart-rate
alert of severity critical (120 exceeds max+10 = 110), an oxygen alert of
severity critical, and a temperature alert of severity warning (38.2 does
not exceed max+1 = 38.5) — so the claimed heart-rate warning and
temperature critical are both wrong. -/
theorem C1_counterexample :
    (createdAlerts (checkForAlerts 1 none sampleData VITAL_RANGES)).map typeSeverity
      = [("heart-rate", "critical"), ("oxygen", "critical"), ("temperature", "warning")]
    ∧ ("critical" : String) ≠ "warning" := by
  refine ⟨by decide, by decide⟩

/-- The heart-rate alert the scenario run creates. -/
def heartRateAlertSample : InsertAlert :=
  { userId := 1, type := "heart-rate",
    message := "Heart rate is 120 BPM, outside normal range (60-100 BPM)",
    severity := "critical", isRead := false }

/-- The oxygen alert the scenario run creates. -/
def oxygenAlertSample : InsertAlert :=
  { userId := 1, type := "oxygen",
    message := "Oxygen saturation is 90%, below normal range (≥95%)",
    severity := "critical", isRead := false }

/-- The temperature alert the scenario run creates. -/
def temperatureAlertSample : InsertAlert :=
  { userId := 1, type := "temperature",
    message := "Temperature is 38.2°C, outside normal range (36.5-37.5°C)",
    severity := "warning", isRead := false }

/-- C1 (amended): for the reading `{field1: 120, field2: 90, field3: 38.2}`
with the default ranges, `checkForAlerts` emits exactly three alerts: a
heart-rate alert with severity critical whose message contains "120 BPM"
and "60-100", an oxygen alert with severity critical whose message
contains "90%" and "≥95%", and a temperature alert with severity warning
whose message contains "38.2°C" and "36.5-37.5°C". -/
theorem C1_scenario :
    createdAlerts (checkForAlerts 1 none sampleData VITAL_RANGES)
      = [heartRateAlertSample, oxygenAlertSample, temperatureAlertSample]
    ∧ containsStr heartRateAlertSample.message "120 BPM"
    ∧ containsStr heartRateAlertSample.message "60-100"
    ∧ containsStr oxygenAlertSample.message "90%"
    ∧ containsStr oxygenAlertSample.message "≥95%"
    ∧ containsStr temperatureAlertSample.message "38.2°C"
    ∧ containsStr temperatureAlertSample.message "36.5-37.5°C" := by
  refine ⟨by decide, ?_, ?_, ?_, ?_, ?_, ?_⟩ <;> decide

/-- C2, counterexample: with the default ranges (oxygen min 95), a reading
whose oxygen is exactly min−3 = 92 produces an oxygen alert of severity
warning, not critical: the code's critical test `oxygen < min - 3` is
strict, so the boundary is exclusive, contradicting the claim. -/
theorem C2_counterexample :
    (createdAlerts (checkForAlerts 1 none oxygenBoundaryData VITAL_RANGES)).map typeSeverity
      = [("oxygen", "warning")]
    ∧ ("warning" : String) ≠ "critical" := by
  refine ⟨by decide, by decide⟩

/-- C2 (amended): for every effective oxygen range, a reading whose oxygen
field equals exactly min−3 produces an oxygen alert with severity warning
(the critical boundary is exclusive: critical requires oxygen strictly
below min−3), and a reading whose oxygen field equals min−2.9 likewise
produces an oxygen alert with severity warning. -/
theorem C2_oxygen_boundary (uid : ℤ) (thr : Option Threshold) (dflt : VitalRanges)
    (data : ThingSpeakResponse) (r : ThingSpeakField) (rest : List ThingSpeakField) (m : ℚ)
    (hfeeds : data.feeds = some (r :: rest))
    (hmin : (resolveRanges thr dflt).oxygen.min = JsNum.num m) :
    (r.field2 = some (JsNum.num (m - 3)) →
      (alertsOfType "oxygen" (createdAlerts (checkForAlerts uid thr data dflt))).map
        InsertAlert.severity = ["warning"])
    ∧ (r.field2 = some (JsNum.num (m - 2.9)) →
      (alertsOfType "oxygen" (createdAlerts (checkForAlerts uid thr data dflt))).map
        InsertAlert.severity = ["warning"]) := by
  rw [createdAlerts_checkForAlerts uid thr dflt data r rest hfeeds, oxAlerts_evaluateReading]
  constructor <;> intro hv
  · have h1 : m - 3 < m := by linarith
    have h2 : ¬ (m - 3 < m - 3) := lt_irrefl _
    simp [checkOxygen, hv, hmin, h1, h2]
  · have h1 : m - 2.9 < m := by norm_num
    have h2 : ¬ (m - 2.9 < m - 3) := by norm_num
    simp [checkOxygen, hv, hmin, h1, h2]

/-- C2 witness: the amended boundary rule applied at the default ranges,
oxygen = 95 − 3 = 92. -/
theorem C2_oxygen_boundary_witness :
    (alertsOfType "oxygen"
      (createdAlerts (checkForAlerts 1 none oxygenBoundaryData VITAL_RANGES))).map
      InsertAlert.severity = ["warning"] :=
  (C2_oxygen_boundary 1 none VITAL_RANGES oxygenBoundaryData oxygenBoundaryReading [] 95
    rfl rfl).1 (by norm_num [oxygenBoundaryReading])

/-- C3, counterexample: with a stored heart-rate minimum of "abc" (present
but not parseable), the effective heart-rate minimum used by
`checkForAlerts` is NaN, not the default 60; consequently a heart rate of
50 — below the default minimum — produces no alert at all, while under
the claimed fallback-to-default it would. -/
theorem C3_counterexample :
    (resolveRanges (some unparseableThreshold) VITAL_RANGES).heartRate.min = JsNum.nan
    ∧ JsNum.nan ≠ JsNum.num 60
    ∧ createdAlerts (checkForAlerts 1 (some unparseableThreshold) lowHeartRateData VITAL_RANGES)
        = [] := by
  refine ⟨by decide, by decide, by decide⟩

/-- C3 (amended): threshold resolution falls back to the system default
exactly when the threshold record is absent or the stored string is
empty (JavaScript truthiness); a present non-empty value is passed to
`parseFloat` with no parseability check, so an unparseable value makes
the effective bound NaN rather than the default — and a NaN minimum
never triggers that vital's low alert, because every comparison against
NaN is false. -/
theorem C3_threshold_resolution (thr : Threshold) (dflt : VitalRanges) (uid : ℤ)
    (r : ThingSpeakField) (v : JsNum) :
    resolveRanges none dflt = dflt
    ∧ (thr.heartRateMin = "" →
        (resolveRanges (some thr) dflt).heartRate.min = dflt.heartRate.min)
    ∧ (thr.heartRateMax = "" →
        (resolveRanges (some thr) dflt).heartRate.max = dflt.heartRate.max)
    ∧ (thr.oxygenMin = "" →
        (resolveRanges (some thr) dflt).oxygen.min = dflt.oxygen.min)
    ∧ (thr.temperatureMin = "" →
        (resolveRanges (some thr) dflt).temperature.min = dflt.temperature.min)
    ∧ (thr.temperatureMax = "" →
        (resolveRanges (some thr) dflt).temperature.max = dflt.temperature.max)
    ∧ (thr.heartRateMin ≠ "" →
        (resolveRanges (some thr) dflt).heartRate.min = parseFloat thr.heartRateMin)
    ∧ (thr.heartRateMax ≠ "" →
        (resolveRanges (some thr) dflt).heartRate.max = parseFloat thr.heartRateMax)
    ∧ (thr.oxygenMin ≠ "" →
        (resolveRanges (some thr) dflt).oxygen.min = parseFloat thr.oxygenMin)
    ∧ (thr.temperatureMin ≠ "" →
        (resolveRanges (some thr) dflt).temperature.min = parseFloat thr.temperatureMin)
    ∧ (thr.temperatureMax ≠ "" →
        (resolveRanges (some thr) dflt).temperature.max = parseFloat thr.temperatureMax)
    ∧ ((resolveRanges (some thr) dflt).heartRate.min = JsNum.nan →
        r.field1 = some v →
        JsNum.gt v (resolveRanges (some thr) dflt).heartRate.max = false →
        alertsOfType "heart-rate"
          (evaluateReading uid (resolveRanges (some thr) dflt) r) = [])
    ∧ ((resolveRanges (some thr) dflt).oxygen.min = JsNum.nan →
        alertsOfType "oxygen" (evaluateReading uid (resolveRanges (some thr) dflt) r) = [])
    ∧ ((resolveRanges (some thr) dflt).temperature.min = JsNum.nan →
        r.field3 = some v →
        JsNum.gt v (resolveRanges (some thr) dflt).temperature.max = false →
        alertsOfType "temperature"
          (evaluateReading uid (resolveRanges (some thr) dflt) r) = []) := by
  refine ⟨rfl, ?_, ?_, ?_, ?_, ?_, ?_, ?_, ?_, ?_, ?_, ?_, ?_, ?_⟩
  · intro h; simp [resolveRanges, strOrDefault, h]
  · intro h; simp [resolveRanges, strOrDefault, h]
  · intro h; simp [resolveRanges, strOrDefault, h]
  · intro h; simp [resolveRanges, strOrDefault, h]
  · intro h; simp [resolveRanges, strOrDefault, h]
  · intro h; simp [resolveRanges, strOrDefault, h]
  · intro h; simp [resolveRanges, strOrDefault, h]
  · intro h; simp [resolveRanges, strOrDefault, h]
  · intro h; simp [resolveRanges, strOrDefault, h]
  · intro h; simp [resolveRanges, strOrDefault, h]
  · intro hnan hv hgt
    rw [hrAlerts_evaluateReading]
    simp [checkHeartRate, hv, hnan, hgt]
  · intro hnan
    rw [oxAlerts_evaluateReading]
    cases h2 : r.field2 <;> simp [checkOxygen, h2, hnan]
  · intro hnan hv hgt
    rw [tempAlerts_evaluateReading]
    simp [checkTemperature, hv, hnan, hgt]

/-- C3 witness: at the threshold record storing "abc" as heart-rate
minimum, the effective minimum is `parseFloat "abc"` (which is NaN), and
a heart rate of 50 — below the default minimum 60 — yields no
heart-rate alert. -/
theorem C3_threshold_resolution_witness :
    (resolveRanges (some unparseableThreshold) VITAL_RANGES).heartRate.min
        = parseFloat "abc"
    ∧ alertsOfType "heart-rate"
        (evaluateReading 1 (resolveRanges (some unparseableThreshold) VITAL_RANGES)
          { field1 := some (JsNum.num 50), field2 := none, field3 := none,
            created_at := "" }) = [] := by
  have h := C3_threshold_resolution unparseableThreshold VITAL_RANGES 1
    { field1 := some (JsNum.num 50), field2 := none, field3 := none, created_at := "" }
    (JsNum.num 50)
  exact ⟨h.2.2.2.2.2.2.1 (by decide),
    h.2.2.2.2.2.2.2.2.2.2.2.1 (by decide) rfl (by decide)⟩

/-- C4: for every effective heart-rate range with min ≤ max and every
present heart-rate value v, `checkForAlerts` emits exactly one
heart-rate alert iff v < min or v > max, and that alert's severity is
critical iff v < min−10 or v > max+10, otherwise warning. -/
theorem C4_heart_rate_policy (uid : ℤ) (thr : Option Threshold) (dflt : VitalRanges)
    (data : ThingSpeakResponse) (r : ThingSpeakField) (rest : List ThingSpeakField)
    (hm hM v : ℚ)
    (hfeeds : data.feeds = some (r :: rest))
    (hmin : (resolveRanges thr dflt).heartRate.min = JsNum.num hm)
    (hmax : (resolveRanges thr dflt).heartRate.max = JsNum.num hM)
    (hrange : hm ≤ hM)
    (hv : r.field1 = some (JsNum.num v)) :
    (alertsOfType "heart-rate" (createdAlerts (checkForAlerts uid thr data dflt))).map
        InsertAlert.severity
      = if v < hm ∨ hM < v then
          [if v < hm - 10 ∨ hM + 10 < v then "critical" else "warning"]
        else [] := by
  rw [createdAlerts_checkForAlerts uid thr dflt data r rest hfeeds, hrAlerts_evaluateReading]
  simp only [checkHeartRate, hv, hmin, hmax, JsNum.lt_num, JsNum.gt_num, JsNum.sub_num,
    JsNum.add_num, Bool.or_eq_true, decide_eq_true_eq]
  by_cases h1 : v < hm ∨ hM < v
  · rw [if_pos h1, if_pos h1]
    by_cases h2 : v < hm - 10 ∨ hM + 10 < v
    · rw [if_pos h2]; rfl
    · rw [if_neg h2]; rfl
  · rw [if_neg h1, if_neg h1]; rfl

/-- C4 witness: the heart-rate policy applied to the scenario reading
(120 BPM against the default 60-100 range): 120 > 100 + 10, severity
critical. -/
theorem C4_heart_rate_policy_witness :
    (alertsOfType "heart-rate" (createdAlerts (checkForAlerts 1 none sampleData VITAL_RANGES))).map
        InsertAlert.severity = ["critical"] := by
  have h := C4_heart_rate_policy 1 none VITAL_RANGES sampleData sampleReading [] 60 100 120
    rfl rfl rfl (by norm_num) rfl
  rw [h]; decide

/-- C5: for every effective temperature range with min ≤ max and every
present temperature value v, `checkForAlerts` emits exactly one
temperature alert iff v < min or v > max, and that alert's severity is
critical iff v > max+1 or v < min−1, otherwise warning. -/
theorem C5_temperature_policy (uid : ℤ) (thr : Option Threshold) (dflt : VitalRanges)
    (data : ThingSpeakResponse) (r : ThingSpeakField) (rest : List ThingSpeakField)
    (tm tM v : ℚ)
    (hfeeds : data.feeds = some (r :: rest))
    (hmin : (resolveRanges thr dflt).temperature.min = JsNum.num tm)
    (hmax : (resolveRanges thr dflt).temperature.max = JsNum.num tM)
    (hrange : tm ≤ tM)
    (hv : r.field3 = some (JsNum.num v)) :
    (alertsOfType "temperature" (createdAlerts (checkForAlerts uid thr data dflt))).map
        InsertAlert.severity
      = if v < tm ∨ tM < v then
          [if tM + 1 < v ∨ v < tm - 1 then "critical" else "warning"]
        else [] := by
  rw [createdAlerts_checkForAlerts uid thr dflt data r rest hfeeds, tempAlerts_evaluateReading]
  simp only [checkTemperature, hv, hmin, hmax, JsNum.lt_num, JsNum.gt_num, JsNum.sub_num,
    JsNum.add_num, Bool.or_eq_true, decide_eq_true_eq]
  by_cases h1 : v < tm ∨ tM < v
  · rw [if_pos h1, if_pos h1]
    by_cases h2 : tM + 1 < v ∨ v < tm - 1
    · rw [if_pos h2]; rfl
    · rw [if_neg h2]; rfl
  · rw [if_neg h1, if_neg h1]; rfl

/-- C5 witness: the temperature policy applied to the scenario reading
(38.2 °C against the default 36.5-37.5 range): outside the range but not
past 38.5, severity warning. -/
theorem C5_temperature_policy_witness :
    (alertsOfType "temperature"
      (createdAlerts (checkForAlerts 1 none sampleData VITAL_RANGES))).map
        InsertAlert.severity = ["warning"] := by
  have h := C5_temperature_policy 1 none VITAL_RANGES sampleData sampleReading [] 36.5 37.5 38.2
    rfl rfl rfl (by norm_num) rfl
  rw [h]; decide

/-- C6: on a missing or empty feeds list, `checkForAlerts` performs no
store operation at all — it neither reads the user threshold nor creates
an alert — and the alert store is left unchanged. -/
theorem C6_no_feeds (uid : ℤ) (thr : Option Threshold) (dflt : VitalRanges)
    (data : ThingSpeakResponse) (h : data.feeds = none ∨ data.feeds = some []) :
    checkForAlerts uid thr data dflt = []
    ∧ ∀ st : List InsertAlert, applyOps st (checkForAlerts uid thr data dflt) = st := by
  have he : checkForAlerts uid thr data dflt = [] := by
    rcases h with h | h <;> simp [checkForAlerts, h]
  exact ⟨he, fun st => by rw [he]; rfl⟩

/-- C6 witness: the empty-feed-list and missing-feeds responses, against
the default ranges. -/
theorem C6_no_feeds_witness :
    (checkForAlerts 1 none emptyFeedsData VITAL_RANGES = []
      ∧ applyOps [] (checkForAlerts 1 none emptyFeedsData VITAL_RANGES) = [])
    ∧ checkForAlerts 1 none missingFeedsData VITAL_RANGES = [] :=
  ⟨⟨(C6_no_feeds 1 none VITAL_RANGES emptyFeedsData (Or.inr rfl)).1,
    (C6_no_feeds 1 none VITAL_RANGES emptyFeedsData (Or.inr rfl)).2 []⟩,
    (C6_no_feeds 1 none VITAL_RANGES missingFeedsData (Or.inl rfl)).1⟩

/-- C7: a vital whose field is absent from the latest reading produces
no alert of that vital's type, whatever the other fields and the ranges. -/
theorem C7_absent_field (uid : ℤ) (thr : Option Threshold) (dflt : VitalRanges)
    (data : ThingSpeakResponse) (r : ThingSpeakField) (rest : List ThingSpeakField)
    (hfeeds : data.feeds = some (r :: rest)) :
    (r.field1 = none →
      alertsOfType "heart-rate" (createdAlerts (checkForAlerts uid thr data dflt)) = [])
    ∧ (r.field2 = none →
      alertsOfType "oxygen" (createdAlerts (checkForAlerts uid thr data dflt)) = [])
    ∧ (r.field3 = none →
      alertsOfType "temperature" (createdAlerts (checkForAlerts uid thr data dflt)) = []) := by
  rw [createdAlerts_checkForAlerts uid thr dflt data r rest hfeeds]
  refine ⟨fun h1 => ?_, fun h2 => ?_, fun h3 => ?_⟩
  · rw [hrAlerts_evaluateReading]; simp [checkHeartRate, h1]
  · rw [oxAlerts_evaluateReading]; simp [checkOxygen, h2]
  · rw [tempAlerts_evaluateReading]; simp [checkTemperature, h3]

/-- C7 witness: the oxygen-only boundary reading has no heart-rate and no
temperature field, and indeed produces no alert of either type. -/
theorem C7_absent_field_witness :
    alertsOfType "heart-rate"
        (createdAlerts (checkForAlerts 1 none oxygenBoundaryData VITAL_RANGES)) = []
    ∧ alertsOfType "temperature"
        (createdAlerts (checkForAlerts 1 none oxygenBoundaryData VITAL_RANGES)) = [] :=
  ⟨(C7_absent_field 1 none VITAL_RANGES oxygenBoundaryData oxygenBoundaryReading [] rfl).1 rfl,
    (C7_absent_field 1 none VITAL_RANGES oxygenBoundaryData oxygenBoundaryReading [] rfl).2.2 rfl⟩

/-- C8: a reading with heart rate within [min, max], oxygen at least its
minimum and temperature within [min, max] of the effective ranges
produces zero alerts: the whole run is the single threshold read, with
no `createAlert` write. -/
theorem C8_in_range (uid : ℤ) (thr : Option Threshold) (dflt : VitalRanges)
    (data : ThingSpeakResponse) (r : ThingSpeakField) (rest : List ThingSpeakField)
    (hm hM om tm tM v1 v2 v3 : ℚ)
    (hfeeds : data.feeds = some (r :: rest))
    (hhm : (resolveRanges thr dflt).heartRate.min = JsNum.num hm)
    (hhM : (resolveRanges thr dflt).heartRate.max = JsNum.num hM)
    (hom : (resolveRanges thr dflt).oxygen.min = JsNum.num om)
    (htm : (resolveRanges thr dflt).temperature.min = JsNum.num tm)
    (htM : (resolveRanges thr dflt).temperature.max = JsNum.num tM)
    (hv1 : r.field1 = some (JsNum.num v1)) (h1 : hm ≤ v1) (h2 : v1 ≤ hM)
    (hv2 : r.field2 = some (JsNum.num v2)) (h3 : om ≤ v2)
    (hv3 : r.field3 = some (JsNum.num v3)) (h4 : tm ≤ v3) (h5 : v3 ≤ tM) :
    checkForAlerts uid thr data dflt = [StoreOp.getThreshold uid] := by
  have e1 : checkHeartRate uid (resolveRanges thr dflt) r = [] := by
    simp [checkHeartRate, hv1, hhm, hhM, not_lt.mpr h1, not_lt.mpr h2]
  have e2 : checkOxygen uid (resolveRanges thr dflt) r = [] := by
    simp [checkOxygen, hv2, hom, not_lt.mpr h3]
  have e3 : checkTemperature uid (resolveRanges thr dflt) r = [] := by
    simp [checkTemperature, hv3, htm, htM, not_lt.mpr h4, not_lt.mpr h5]
  simp [checkForAlerts, hfeeds, evaluateReading, e1, e2, e3]

/-- A reading with all three vitals inside the default ranges. -/
def healthyReading : ThingSpeakField :=
  { field1 := some (JsNum.num 72), field2 := some (JsNum.num 98),
    field3 := some (JsNum.num 37), created_at := "" }

/-- Response wrapping the healthy reading. -/
def healthyData : ThingSpeakResponse := { feeds := some [healthyReading] }

/-- C8 witness: a healthy reading (72 BPM, 98 %, 37 °C) against the
default ranges: the run is just the threshold read. -/
theorem C8_in_range_witness :
    checkForAlerts 1 none healthyData VITAL_RANGES = [StoreOp.getThreshold 1] :=
  C8_in_range 1 none VITAL_RANGES healthyData healthyReading [] 60 100 95 36.5 37.5 72 98 37
    rfl rfl rfl rfl rfl rfl rfl (by norm_num) (by norm_num) rfl (by norm_num) rfl
    (by norm_num) (by norm_num)

theorem checkHeartRate_congr (u : ℤ) (g1 g2 : VitalRanges) (r : ThingSpeakField)
    (h : g1.heartRate = g2.heartRate) : checkHeartRate u g1 r = checkHeartRate u g2 r := by
  unfold checkHeartRate; rw [h]

theorem checkOxygen_congr (u : ℤ) (g1 g2 : VitalRanges) (r : ThingSpeakField)
    (h : g1.oxygen.min = g2.oxygen.min) : checkOxygen u g1 r = checkOxygen u g2 r := by
  unfold checkOxygen; rw [h]

theorem checkTemperature_congr (u : ℤ) (g1 g2 : VitalRanges) (r : ThingSpeakField)
    (h : g1.temperature = g2.temperature) :
    checkTemperature u g1 r = checkTemperature u g2 r := by
  unfold checkTemperature; rw [h]

/-- C9: the oxygen max bound never influences alerting — two runs of
`checkForAlerts` on the same inputs whose default ranges differ only in
the oxygen range's max produce identical store-operation traces (same
alerts, types, severities and messages). -/
theorem C9_oxygen_max_unused (uid : ℤ) (thr : Option Threshold) (data : ThingSpeakResponse)
    (d1 d2 : VitalRanges)
    (hh : d1.heartRate = d2.heartRate) (ht : d1.temperature = d2.temperature)
    (homin : d1.oxygen.min = d2.oxygen.min) (hou : d1.oxygen.unit = d2.oxygen.unit) :
    checkForAlerts uid thr data d1 = checkForAlerts uid thr data d2 := by
  have hr1 : (resolveRanges thr d1).heartRate = (resolveRanges thr d2).heartRate := by
    simp [resolveRanges, hh]
  have ho1 : (resolveRanges thr d1).oxygen.min = (resolveRanges thr d2).oxygen.min := by
    simp [resolveRanges, homin]
  have ht1 : (resolveRanges thr d1).temperature = (resolveRanges thr d2).temperature := by
    simp [resolveRanges, ht]
  cases hf : data.feeds with
  | none => simp [checkForAlerts, hf]
  | some feeds =>
    cases feeds with
    | nil => simp [checkForAlerts, hf]
    | cons r rest =>
      simp only [checkForAlerts, hf, evaluateReading]
      rw [checkHeartRate_congr uid _ _ r hr1, checkOxygen_congr uid _ _ r ho1,
        checkTemperature_congr uid _ _ r ht1]

/-- Default ranges with an enlarged (dead) oxygen max bound. -/
def wideOxygenRanges : VitalRanges :=
  { heartRate := VITAL_RANGES.heartRate,
    oxygen := { min := JsNum.num 95, max := JsNum.num 1000, unit := "%" },
    temperature := VITAL_RANGES.temperature }

/-- C9 witness: the scenario run is unchanged when the oxygen max is
raised from 100 to 1000. -/
theorem C9_oxygen_max_unused_witness :
    checkForAlerts 1 none sampleData VITAL_RANGES
      = checkForAlerts 1 none sampleData wideOxygenRanges :=
  C9_oxygen_max_unused 1 none sampleData VITAL_RANGES wideOxygenRanges rfl rfl rfl rfl

/-- C10: `markAlertAsRead` on a stored alert flips only that alert's
`isRead` flag to true — id, userId, type, message, severity and
timestamp are unchanged, every other stored alert is untouched and none
is deleted — and on a missing id it raises "Alert not found" leaving the
store unchanged. -/
theorem C10_markAlertAsRead (m : AlertMap) (id : ℤ) :
    (∀ a : Alert, AlertMap.get m id = some a →
      markAlertAsRead m id
          = (AlertMap.set m id { a with isRead := true },
             Except.ok { a with isRead := true })
      ∧ AlertMap.get (markAlertAsRead m id).1 id = some { a with isRead := true }
      ∧ ({ a with isRead := true } : Alert).id = a.id
      ∧ ({ a with isRead := true } : Alert).userId = a.userId
      ∧ ({ a with isRead := true } : Alert).type = a.type
      ∧ ({ a with isRead := true } : Alert).message = a.message
      ∧ ({ a with isRead := true } : Alert).severity = a.severity
      ∧ ({ a with isRead := true } : Alert).timestamp = a.timestamp
      ∧ ({ a with isRead := true } : Alert).isRead = true
      ∧ (∀ j : ℤ, j ≠ id →
          AlertMap.get (markAlertAsRead m id).1 j = AlertMap.get m j)
      ∧ (∀ j : ℤ, AlertMap.get m j ≠ none → AlertMap.get (markAlertAsRead m id).1 j ≠ none))
    ∧ (AlertMap.get m id = none →
        markAlertAsRead m id = (m, Except.error "Alert not found")) := by
  constructor
  · intro a ha
    have hrun : markAlertAsRead m id
        = (AlertMap.set m id { a with isRead := true },
           Except.ok { a with isRead := true }) := by
      unfold markAlertAsRead
      rw [ha]
    refine ⟨hrun, ?_, rfl, rfl, rfl, rfl, rfl, rfl, rfl, ?_, ?_⟩
    · rw [hrun, AlertMap.get_set, if_pos rfl]
    · intro j hj
      rw [hrun, AlertMap.get_set, if_neg hj]
    · intro j hj
      rw [hrun, AlertMap.get_set]
      by_cases hji : j = id
      · rw [if_pos hji]; exact Option.some_ne_none _
      · rw [if_neg hji]; exact hj
  · intro ha
    unfold markAlertAsRead
    rw [ha]

/-- C10 witness: on the one-alert store, marking id 1 stores the same
alert with isRead true, and marking the absent id 2 reports
"Alert not found". -/
theorem C10_markAlertAsRead_witness :
    AlertMap.get (markAlertAsRead sampleStore 1).1 1
        = some { sampleAlert with isRead := true }
    ∧ markAlertAsRead sampleStore 2 = (sampleStore, Except.error "Alert not found") :=
  ⟨((C10_markAlertAsRead sampleStore 1).1 sampleAlert rfl).2.1,
    (C10_markAlertAsRead sampleStore 2).2 rfl⟩

end

end HealthTrack
